import Mathlib

/-!
Verification of the expense-tracker backend (`main.py`, `schemas.py`).

The repository is a small FastAPI service storing expense documents in a
document store and exposing three operations:

* `POST /api/expenses` (`add_expense` in `main.py`): validate the body against
  the `Expense` schema of `schemas.py`, normalise the date, derive the
  `month = date.strftime("%Y-%m")` key, and insert one document;
* `GET /api/expenses` (`list_expenses`): fetch documents (optionally filtered
  by exact `month` match), sort by date descending with Python's stable
  `list.sort(key=..., reverse=True)`, and map each document to an output row;
* `GET /api/summary` (`summary`): fetch documents the same way and compute
  `total`, `count`, per-category `breakdown` and per-month `trends` in one
  linear pass each.

Modelling conventions:
* monetary amounts (Python floats) are modelled as `ℚ`;
* Python `datetime` values are modelled by `Datetime` (year, month, day —
  all values this service ever writes have a zero time component);
* stored documents are `Doc`, with `Option` fields for keys that a fetched
  document may lack (`d.get(...)` defaults are applied at the use sites,
  exactly where the source applies them);
* Python `dict`s built by the aggregation loops are insertion-ordered
  association lists `List (String × ℚ)` with first-occurrence lookup and
  first-occurrence update, matching `dict.get`/`dict.__setitem__`;
* the storage accessor (`database.py`, not part of the sources) is modelled
  from the spec's collaborator contract: `get_documents` is exact-match
  filtering, `create_document` appends one document and returns its
  storage-assigned id;
* the validation boundary (the external schema library enforcing
  `schemas.Expense`) is modelled from the spec: amount must be `> 0`,
  category is required text, date arrives as a date value or as text that
  must parse in the exact `YYYY-MM-DD` form, month is optional client text.
-/

/-- A Python `datetime` value restricted to its date components.  Every
`datetime` this service writes has time `00:00:00` (see
`datetime.combine(date, datetime.min.time())` and
`datetime.strptime(_, "%Y-%m-%d")` in `add_expense`). -/
structure Datetime where
  year : Nat
  month : Nat
  day : Nat
deriving DecidableEq, Repr

/-- Python `datetime` comparison: lexicographic on the components. -/
def Datetime.le (a b : Datetime) : Prop :=
  a.year < b.year ∨
    (a.year = b.year ∧
      (a.month < b.month ∨ (a.month = b.month ∧ a.day ≤ b.day)))

instance : DecidableRel Datetime.le := fun a b => by
  unfold Datetime.le; infer_instance

theorem Datetime.le_refl (a : Datetime) : Datetime.le a a := by
  unfold Datetime.le; omega

theorem Datetime.le_total (a b : Datetime) :
    Datetime.le a b ∨ Datetime.le b a := by
  unfold Datetime.le; omega

theorem Datetime.le_trans {a b c : Datetime}
    (h1 : Datetime.le a b) (h2 : Datetime.le b c) : Datetime.le a c := by
  unfold Datetime.le at *; omega

/-- `datetime.min`: year 1, month 1, day 1. -/
def datetimeMin : Datetime := ⟨1, 1, 1⟩

/-- Gregorian leap-year rule, as used by Python's `datetime` constructor. -/
def isLeapYear (y : Nat) : Bool :=
  (y % 4 == 0 && y % 100 != 0) || y % 400 == 0

/-- Number of days of month `m` in year `y` (months counted 1–12). -/
def daysInMonth (y m : Nat) : Nat :=
  if m = 2 then (if isLeapYear y then 29 else 28)
  else if m = 4 ∨ m = 6 ∨ m = 9 ∨ m = 11 then 30
  else 31

/-- Numeric value of a decimal digit character. -/
def digitVal (c : Char) : Nat := c.toNat - 48

/-- Modelled from the spec: the validation boundary's coercion of date text
into a date value.  The spec states that date text must be in the exact
`YYYY-MM-DD` form (four digits, dash, two digits, dash, two digits) and
denote a valid calendar date; anything else is a validation error. -/
def pydanticParseDate (s : String) : Option Datetime :=
  match s.toList with
  | [y1, y2, y3, y4, '-', m1, m2, '-', d1, d2] =>
    if (y1.isDigit && y2.isDigit && y3.isDigit && y4.isDigit &&
        m1.isDigit && m2.isDigit && d1.isDigit && d2.isDigit) then
      let y := ((digitVal y1 * 10 + digitVal y2) * 10 + digitVal y3) * 10 + digitVal y4
      let m := digitVal m1 * 10 + digitVal m2
      let d := digitVal d1 * 10 + digitVal d2
      if 1 ≤ y ∧ 1 ≤ m ∧ m ≤ 12 ∧ 1 ≤ d ∧ d ≤ daysInMonth y m then
        some ⟨y, m, d⟩
      else none
    else none
  | _ => none

/-- One step of the CPython `strptime` month directive
`(1[0-2]|0[1-9]|[1-9])`: consume a two-digit month if the next two
characters form one, else a single non-zero digit.  (Committing to the
longer alternative is faithful: when a two-digit month parses, the
character after it is not `-`-compatible with the one-digit fallback.) -/
def strptimeTakeMonth : List Char → Option (Nat × List Char)
  | c1 :: c2 :: rest =>
    if c1.isDigit && c2.isDigit then
      let v := digitVal c1 * 10 + digitVal c2
      if 1 ≤ v ∧ v ≤ 12 then some (v, rest) else none
    else if c1.isDigit && 1 ≤ digitVal c1 then some (digitVal c1, c2 :: rest)
    else none
  | [c1] => if c1.isDigit && 1 ≤ digitVal c1 then some (digitVal c1, []) else none
  | [] => none

/-- One step of the CPython `strptime` day directive
`(3[01]|[12]\d|0[1-9]|[1-9])`: consume a two-digit day `01`–`31` if the
next two characters form one, else a single non-zero digit. -/
def strptimeTakeDay : List Char → Option (Nat × List Char)
  | c1 :: c2 :: rest =>
    if c1.isDigit && c2.isDigit then
      let v := digitVal c1 * 10 + digitVal c2
      if 1 ≤ v ∧ v ≤ 31 then some (v, rest) else none
    else if c1.isDigit && 1 ≤ digitVal c1 then some (digitVal c1, c2 :: rest)
    else none
  | [c1] => if c1.isDigit && 1 ≤ digitVal c1 then some (digitVal c1, []) else none
  | [] => none

/-- `datetime.strptime(s, "%Y-%m-%d")` of CPython: `%Y` is exactly four
digits, `%m` and `%d` are one or two digits within range, literal dashes in
between, no unconverted data may remain, and the resulting triple must be a
constructible date (`ValueError` otherwise, e.g. February 30th). -/
def strptimeYmd (s : String) : Option Datetime :=
  match s.toList with
  | y1 :: y2 :: y3 :: y4 :: '-' :: rest1 =>
    if y1.isDigit && y2.isDigit && y3.isDigit && y4.isDigit then
      let y := ((digitVal y1 * 10 + digitVal y2) * 10 + digitVal y3) * 10 + digitVal y4
      match strptimeTakeMonth rest1 with
      | some (m, '-' :: rest2) =>
        match strptimeTakeDay rest2 with
        | some (d, []) =>
          if 1 ≤ y ∧ d ≤ daysInMonth y m then some ⟨y, m, d⟩ else none
        | _ => none
      | _ => none
    else none
  | _ => none

/-- A document of the `expense` collection as returned by the storage
accessor.  Fields other than the storage-assigned `_id` are optional: a
fetched document may lack any of them, and the handlers apply `d.get(...)`
defaults at each use site. -/
structure Doc where
  _id : String
  amount : Option ℚ
  category : Option String
  note : Option String
  date : Option Datetime
  month : Option String
deriving DecidableEq, Repr

/-- `float(d.get("amount", 0))`: the amount of a document, defaulting to 0
when the key is absent. -/
def docAmount (d : Doc) : ℚ := d.amount.getD 0

/-- `x.get("date", datetime.min)`: the sort key used by `list_expenses`. -/
def sortKey (d : Doc) : Datetime := d.date.getD datetimeMin

/-- Modelled from the spec: the storage accessor's
`get_documents(collection, filter)` with `filter` an exact-match field/value
mapping.  Both handlers only ever build the empty mapping (no filter) or
`\x7b"month": m\x7d`, so the filter argument is `Option String` for the month
value: `none` returns every document, `some m` the documents whose stored
`month` field is exactly `m`. -/
def get_documents (docs : List Doc) (filterQ : Option String) : List Doc :=
  match filterQ with
  | none => docs
  | some m => docs.filter (fun d => d.month = some m)

/-- Modelled from the spec: the storage accessor's
`create_document(collection, record)` appends one document to the collection
and returns its storage-assigned opaque id (modelled as the position of the
new document, rendered as text). -/
def create_document (docs : List Doc) (rec : Doc) : List Doc × String :=
  let newId := toString docs.length
  (docs ++ [{ rec with _id := newId }], newId)

/-- First-occurrence lookup with default: Python's `dict.get(k, dflt)` for
the insertion-ordered dictionaries built by `summary`. -/
def dictGet (m : List (String × ℚ)) (k : String) (dflt : ℚ) : ℚ :=
  match m with
  | [] => dflt
  | (k', v) :: rest => if k' = k then v else dictGet rest k dflt

/-- Python's `dict[k] = v`: replace the value at an existing key in place,
else append the new key at the end (insertion order). -/
def dictSet (m : List (String × ℚ)) (k : String) (v : ℚ) : List (String × ℚ) :=
  match m with
  | [] => [(k, v)]
  | (k', v') :: rest =>
    if k' = k then (k, v) :: rest else (k', v') :: dictSet rest k v

/-- `m[k] = m.get(k, 0) + a`, the accumulation step of both `breakdown` and
`trends` in `summary`. -/
def dictAdd (m : List (String × ℚ)) (k : String) (a : ℚ) : List (String × ℚ) :=
  dictSet m k (dictGet m k 0 + a)

/-- Sum of the values of one of the dictionaries built by `summary`. -/
def valuesSum (m : List (String × ℚ)) : ℚ :=
  (m.map Prod.snd).sum

/-- The `date` entry of a request body: JSON text, or an already-coerced
date value (the schema declares `date: datetime.date`, so the validation
boundary hands the handler a date object). -/
inductive DateField
  | text (s : String)
  | dateVal (d : Datetime)
deriving DecidableEq, Repr

/-- A request body for `POST /api/expenses`, shaped like the dictionary the
handler works on (`expense.model_dump()`): the fields of `schemas.Expense`.
Also the post-`model_dump` dictionary type inside `add_expense`, whose
`date` entry is a string or a date value (`main.py` lines 92–99). -/
structure RawExpense where
  amount : ℚ
  category : String
  note : Option String
  date : DateField
  month : Option String
deriving DecidableEq, Repr

/-- `schemas.Expense` after boundary validation: `amount > 0` enforced,
`date` coerced to a date value, `month` still whatever optional text the
client supplied (it is overwritten later by `add_expense`). -/
structure Expense where
  amount : ℚ
  category : String
  note : Option String
  date : Datetime
  month : Option String
deriving DecidableEq, Repr

/-- `class ExpenseCreate(Expense): pass` in `main.py`. -/
abbrev ExpenseCreate := Expense

/-- An error response: `HTTPException(status, detail)` raised by a handler,
or the per-field validation error the boundary returns for a body that
fails the `Expense` schema. -/
inductive ApiError
  | http (status : Nat) (detail : String)
  | validation (msgs : List String)
deriving DecidableEq, Repr

/-- HTTP status of an error response (schema validation errors are of the
422 Unprocessable Entity kind). -/
def ApiError.status : ApiError → Nat
  | .http s _ => s
  | .validation _ => 422

/-- Modelled from the spec: boundary validation of a request body against
`schemas.Expense`.  `amount: float = Field(..., gt=0)` requires a strictly
positive amount; `date: datetime.date` requires the date text to parse in
the exact `YYYY-MM-DD` form (date values pass through); failures produce a
structured per-field error and the handler never runs. -/
def validateExpense (raw : RawExpense) : Except (List String) Expense :=
  let amountErrs : List String :=
    if 0 < raw.amount then [] else ["amount: Input should be greater than 0"]
  match raw.date with
  | .dateVal d =>
    match amountErrs with
    | [] => .ok ⟨raw.amount, raw.category, raw.note, d, raw.month⟩
    | es => .error es
  | .text s =>
    match pydanticParseDate s with
    | some d =>
      match amountErrs with
      | [] => .ok ⟨raw.amount, raw.category, raw.note, d, raw.month⟩
      | es => .error es
    | none => .error (amountErrs ++ ["date: Input should be a valid date"])

/-- `expense.model_dump()`: the validated model as a dictionary; the `date`
entry is a date object, never a string. -/
def model_dump (e : Expense) : RawExpense :=
  ⟨e.amount, e.category, e.note, .dateVal e.date, e.month⟩

/-- Zero-padded two-digit rendering, as `strftime` does for `%m` and `%d`. -/
def pad2 (n : Nat) : String :=
  if n < 10 then "0" ++ toString n else toString n

/-- `d.strftime("%Y-%m")`: the derived month key. -/
def strftimeYM (d : Datetime) : String :=
  toString d.year ++ "-" ++ pad2 d.month

/-- `d.strftime("%Y-%m-%d")`: the date rendering used by list output. -/
def strftimeYMD (d : Datetime) : String :=
  toString d.year ++ "-" ++ pad2 d.month ++ "-" ++ pad2 d.day

/-- The `ExpenseOut` response model of `main.py`. -/
structure ExpenseOut where
  id : String
  amount : ℚ
  category : String
  note : Option String
  date : String
  month : String
deriving DecidableEq, Repr

/-- `_doc_to_expense_out` of `main.py`: map a fetched document to an output
row, applying the defensive defaults (`amount` 0, `category` empty, date
rendered as `str(None)` when it is not a datetime value). -/
def doc_to_expense_out (doc : Doc) : ExpenseOut where
  id := doc._id
  amount := doc.amount.getD 0
  category := doc.category.getD ""
  note := doc.note
  date := match doc.date with
          | some dt => strftimeYMD dt
          | none => "None"
  month := doc.month.getD ""

/-- The collection contents after a create request together with the
response.  `docs` equal to the pre-request contents means no write
occurred. -/
structure CreateResult where
  docs : List Doc
  response : Except ApiError String
deriving Repr

/-- `add_expense` of `main.py` (the handler body, after boundary
validation).  Raises 500 when the database handle is not configured;
normalises a string date with `strptime` (raising 400 on failure) — a
branch the validated pipeline never reaches, since `model_dump` yields a
date object; overwrites the `month` entry with the value derived from the
parsed date; inserts the document and returns its id. -/
def add_expense (dbConfigured : Bool) (docs : List Doc)
    (expense_dict : RawExpense) : CreateResult :=
  if dbConfigured = false then
    ⟨docs, .error (.http 500 "Database not configured")⟩
  else
    let withDate : Option Datetime :=
      match expense_dict.date with
      | .text s => strptimeYmd s
      | .dateVal dd => some dd  -- datetime.combine(date, datetime.min.time())
    match withDate with
    | none => ⟨docs, .error (.http 400 "date must be YYYY-MM-DD")⟩
    | some d =>
      -- the dumped dictionary, month still as supplied by the client,
      -- date entry to be replaced by the normalised datetime
      let base : Doc :=
        { _id := "", amount := some expense_dict.amount,
          category := some expense_dict.category, note := expense_dict.note,
          date := none, month := expense_dict.month }
      -- expense_dict["month"] = d.strftime("%Y-%m"); expense_dict["date"] = d
      let rec0 : Doc := { base with month := some (strftimeYM d), date := some d }
      let inserted := create_document docs rec0
      ⟨inserted.1, .ok inserted.2⟩

/-- The complete create operation: boundary validation against the
`Expense` schema, then the `add_expense` handler.  A validation failure
returns the per-field error and performs no write. -/
def create_pipeline (dbConfigured : Bool) (docs : List Doc)
    (raw : RawExpense) : CreateResult :=
  match validateExpense raw with
  | .error msgs => ⟨docs, .error (.validation msgs)⟩
  | .ok e => add_expense dbConfigured docs (model_dump e)

/-- The filter mapping both read handlers build from the optional `month`
query parameter: `if month:` — Python truthiness, so `None` and the empty
string alike produce the empty mapping. -/
def monthFilter (month : Option String) : Option String :=
  match month with
  | some m => if m = "" then none else some m
  | none => none

/-- The order in which `list_expenses` arranges documents: `a` may precede
`b` when `b`'s sort key is at most `a`'s (date descending). -/
def docSortLe (a b : Doc) : Prop :=
  Datetime.le (sortKey b) (sortKey a)

instance : DecidableRel docSortLe := fun a b => by
  unfold docSortLe; infer_instance

instance : IsTotal Doc docSortLe :=
  ⟨fun a b => (Datetime.le_total (sortKey b) (sortKey a))⟩

instance : IsTrans Doc docSortLe :=
  ⟨fun _ _ _ h1 h2 => Datetime.le_trans h2 h1⟩

/-- `docs.sort(key=lambda x: x.get("date", datetime.min), reverse=True)`:
Python's sort is stable, so its result is the unique permutation that is
sorted by key descending and keeps elements with equal keys in their
original relative order; a stable insertion sort produces exactly that
permutation. -/
def sortByDateDesc (docs : List Doc) : List Doc :=
  docs.insertionSort docSortLe

/-- `list_expenses` of `main.py`: 500 when the database handle is not
configured; otherwise fetch with the optional exact-match month filter,
sort by date descending, and map every document to an output row. -/
def list_expenses (dbConfigured : Bool) (docs : List Doc)
    (month : Option String) : Except ApiError (List ExpenseOut) :=
  if dbConfigured = false then
    .error (.http 500 "Database not configured")
  else
    let fetched := get_documents docs (monthFilter month)
    .ok ((sortByDateDesc fetched).map doc_to_expense_out)

/-- The `breakdown` accumulation step of `summary`:
`breakdown[cat] = breakdown.get(cat, 0) + float(d.get("amount", 0))` with
`cat = d.get("category", "Other")`. -/
def breakdownStep (b : List (String × ℚ)) (d : Doc) : List (String × ℚ) :=
  dictAdd b (d.category.getD "Other") (docAmount d)

/-- The category breakdown computed by `summary` over the fetched set. -/
def breakdownOf (ds : List Doc) : List (String × ℚ) :=
  ds.foldl breakdownStep []

/-- The `trends` accumulation step of `summary`: `m = d.get("month")`
followed by `if m: trends[m] = trends.get(m, 0) + float(d.get("amount", 0))`
— documents whose month key is absent or empty (falsy) are skipped. -/
def trendsStep (t : List (String × ℚ)) (d : Doc) : List (String × ℚ) :=
  match d.month with
  | some m => if m = "" then t else dictAdd t m (docAmount d)
  | none => t

/-- The monthly trends computed by `summary` over the fetched set. -/
def trendsOf (ds : List Doc) : List (String × ℚ) :=
  ds.foldl trendsStep []

/-- `sum(float(d.get("amount", 0)) for d in docs)`. -/
def totalOf (ds : List Doc) : ℚ :=
  (ds.map docAmount).sum

/-- The response of `GET /api/summary`. -/
structure SummaryOut where
  total : ℚ
  count : Nat
  breakdown : List (String × ℚ)
  trends : List (String × ℚ)
deriving DecidableEq, Repr

/-- `summary` of `main.py`: 500 when the database handle is not configured;
otherwise fetch with the optional exact-match month filter
(`\x7b"month": month\x7d if month else \x7b\x7d`) and aggregate. -/
def summary (dbConfigured : Bool) (docs : List Doc)
    (month : Option String) : Except ApiError SummaryOut :=
  if dbConfigured = false then
    .error (.http 500 "Database not configured")
  else
    let ds := get_documents docs (monthFilter month)
    .ok { total := totalOf ds, count := ds.length,
          breakdown := breakdownOf ds, trends := trendsOf ds }

/-! ### Dictionary lemmas -/

theorem valuesSum_nil : valuesSum [] = 0 := rfl

theorem valuesSum_cons (p : String × ℚ) (m : List (String × ℚ)) :
    valuesSum (p :: m) = p.2 + valuesSum m := by
  simp [valuesSum]

/-- Accumulating `a` at any key increases the sum of the dictionary's
values by exactly `a`. -/
theorem valuesSum_dictAdd (m : List (String × ℚ)) (k : String) (a : ℚ) :
    valuesSum (dictAdd m k a) = valuesSum m + a := by
  unfold dictAdd
  induction m with
  | nil => simp [dictGet, dictSet, valuesSum]
  | cons p rest ih =>
    obtain ⟨k', v'⟩ := p
    by_cases h : k' = k
    · subst h
      simp [dictGet, dictSet, valuesSum_cons]
      ring
    · simp only [dictGet, dictSet, if_neg h]
      rw [valuesSum_cons, valuesSum_cons, ih]
      ring

theorem dictGet_dictSet_self (m : List (String × ℚ)) (k : String)
    (v dflt : ℚ) : dictGet (dictSet m k v) k dflt = v := by
  induction m with
  | nil => simp [dictGet, dictSet]
  | cons p rest ih =>
    obtain ⟨k', v'⟩ := p
    by_cases h : k' = k <;> simp [dictGet, dictSet, h, ih]

/-- Folding the `breakdown` loop over a document list adds the documents'
total amount to the sum of the accumulator's values. -/
theorem valuesSum_foldl_breakdown (ds : List Doc) :
    ∀ b, valuesSum (ds.foldl breakdownStep b) = valuesSum b + totalOf ds := by
  induction ds with
  | nil => intro b; simp [totalOf]
  | cons d rest ih =>
    intro b
    rw [List.foldl_cons, ih]
    show valuesSum (dictAdd b _ (docAmount d)) + totalOf rest = _
    rw [valuesSum_dictAdd]
    simp [totalOf]
    ring

/-- Folding the `trends` loop over documents that all carry a non-empty
month key adds the documents' total amount to the accumulator's sum. -/
theorem valuesSum_foldl_trends (ds : List Doc)
    (h : ∀ d ∈ ds, ∃ m, d.month = some m ∧ m ≠ "") :
    ∀ t, valuesSum (ds.foldl trendsStep t) = valuesSum t + totalOf ds := by
  induction ds with
  | nil => intro t; simp [totalOf]
  | cons d rest ih =>
    intro t
    obtain ⟨m, hm, hne⟩ := h d (by simp)
    rw [List.foldl_cons, ih (fun d' hd' => h d' (by simp [hd']))]
    simp only [trendsStep, hm]
    rw [if_neg hne, valuesSum_dictAdd]
    simp [totalOf]
    ring

/-! ### Sorting lemmas -/

/-- When the insertion step of the stable sort skips over `y` while
inserting `x`, the two have different sort keys (the order is reflexive,
so equal keys never get skipped — this is exactly the stability of the
sort). -/
theorem sortKey_ne_of_not_docSortLe {x y : Doc} (h : ¬ docSortLe x y) :
    sortKey y ≠ sortKey x := by
  intro he
  apply h
  unfold docSortLe
  rw [he]
  exact Datetime.le_refl (sortKey x)

theorem filter_orderedInsert_sortKey (x : Doc) (l : List Doc) (v : Datetime) :
    (l.orderedInsert docSortLe x).filter (fun d => decide (sortKey d = v)) =
      if sortKey x = v then
        x :: l.filter (fun d => decide (sortKey d = v))
      else l.filter (fun d => decide (sortKey d = v)) := by
  induction l with
  | nil =>
    by_cases hx : sortKey x = v <;> simp [List.orderedInsert, hx]
  | cons y ys ih =>
    by_cases hr : docSortLe x y
    · rw [List.orderedInsert, if_pos hr]
      by_cases hx : sortKey x = v <;> simp [List.filter_cons, hx]
    · rw [List.orderedInsert, if_neg hr]
      have hne : sortKey y ≠ sortKey x := sortKey_ne_of_not_docSortLe hr
      by_cases hy : sortKey y = v
      · have hx : sortKey x ≠ v := fun he => hne (hy.trans he.symm)
        simp [List.filter_cons, hy, hx, ih]
      · by_cases hx : sortKey x = v <;> simp [List.filter_cons, hy, hx, ih]

/-- Stability of the date-descending sort: for every date value, the
documents carrying that sort key appear in the sorted output exactly in
their original (storage-retrieval) order. -/
theorem sortByDateDesc_filter_sortKey (docs : List Doc) (v : Datetime) :
    (sortByDateDesc docs).filter (fun d => decide (sortKey d = v)) =
      docs.filter (fun d => decide (sortKey d = v)) := by
  induction docs with
  | nil => rfl
  | cons d ds ih =>
    show ((List.insertionSort docSortLe ds).orderedInsert docSortLe d).filter _ = _
    rw [filter_orderedInsert_sortKey]
    by_cases hd : sortKey d = v <;>
      simp only [hd, if_pos, if_neg, ite_true, ite_false, List.filter_cons,
        decide_eq_true_eq] <;>
      simp [sortByDateDesc] at ih <;> simp [ih, hd]

/-- The date-descending sort indeed sorts: in its output every document's
sort key is at least the sort key of every later document. -/
theorem sortByDateDesc_sorted (docs : List Doc) :
    List.Sorted docSortLe (sortByDateDesc docs) :=
  List.sorted_insertionSort docSortLe docs

/-! ### Claim theorems -/

/-- C1: For every successful create operation, the stored record's `month`
field equals the year and zero-padded month (`strftime("%Y-%m")`) derived
from the record's parsed date.  The theorem quantifies over arbitrary
request bodies, including any client-supplied `month`, and the conclusion
is independent of it: the creation path always overwrites the `month`
entry with the derived value before the write. -/
theorem create_stores_month_derived_from_date (dbc : Bool) (docs : List Doc)
    (raw : RawExpense) (id : String)
    (hok : (create_pipeline dbc docs raw).response = .ok id) :
    ∃ nd : Doc, ∃ d : Datetime,
      (create_pipeline dbc docs raw).docs = docs ++ [nd] ∧
      nd.date = some d ∧ nd.month = some (strftimeYM d) := by
  unfold create_pipeline at hok ⊢
  cases hv : validateExpense raw with
  | error msgs =>
    rw [hv] at hok
    simp at hok
  | ok e =>
    rw [hv] at hok
    cases dbc with
    | false => simp [add_expense] at hok
    | true => exact ⟨_, e.date, rfl, rfl, rfl⟩

/-- Witness for C1: creating with date `2024-03-15` and a client-supplied
`month` of `"zzz"` succeeds, and the stored document carries the derived
month `2024-03`, not the client value. -/
theorem create_stores_month_derived_from_date_witness :
    (create_pipeline true []
        ⟨42, "Food", none, .text "2024-03-15", some "zzz"⟩).response = .ok "0" ∧
    ∃ nd : Doc, ∃ d : Datetime,
      (create_pipeline true []
          ⟨42, "Food", none, .text "2024-03-15", some "zzz"⟩).docs = [] ++ [nd] ∧
      nd.date = some d ∧ nd.month = some (strftimeYM d) :=
  ⟨rfl, create_stores_month_derived_from_date true []
    ⟨42, "Food", none, .text "2024-03-15", some "zzz"⟩ "0" rfl⟩

/-- C2: A create request whose date arrives as text that does not parse in
the exact `YYYY-MM-DD` form fails with a 400-class validation error and no
document is written. -/
theorem create_malformed_date_text_rejected (dbc : Bool) (docs : List Doc)
    (raw : RawExpense) (s : String) (hs : raw.date = DateField.text s)
    (hp : pydanticParseDate s = none) :
    (create_pipeline dbc docs raw).docs = docs ∧
      ∃ e, (create_pipeline dbc docs raw).response = .error e ∧
        400 ≤ e.status ∧ e.status < 500 := by
  unfold create_pipeline validateExpense
  simp only [hs]
  simp only [hp]
  exact ⟨trivial, .validation _, rfl, by norm_num [ApiError.status],
    by norm_num [ApiError.status]⟩

/-- Witness for C2: creating with date `"15-03-2024"` (wrong format) leaves
the collection unchanged and yields a 4xx error. -/
theorem create_malformed_date_text_rejected_witness :
    pydanticParseDate "15-03-2024" = none ∧
    ((create_pipeline true [] ⟨42, "Food", none, .text "15-03-2024", none⟩).docs = [] ∧
      ∃ e, (create_pipeline true []
          ⟨42, "Food", none, .text "15-03-2024", none⟩).response = .error e ∧
        400 ≤ e.status ∧ e.status < 500) :=
  ⟨by decide, create_malformed_date_text_rejected true []
    ⟨42, "Food", none, .text "15-03-2024", none⟩ "15-03-2024" rfl (by decide)⟩

/-- C3: `summary` with no filter fetches every stored document and returns
`total` equal to the sum of their amounts and `count` equal to their
number. -/
theorem summary_no_filter_total_count (docs : List Doc) :
    ∃ out : SummaryOut, summary true docs none = .ok out ∧
      out.total = (docs.map docAmount).sum ∧ out.count = docs.length := by
  refine ⟨_, rfl, ?_, ?_⟩ <;>
    simp [summary, get_documents, monthFilter, totalOf]

/-- C4: in every `summary` response the values of the `breakdown` mapping
sum to the `total` field: the per-category classification partitions the
fetched set. -/
theorem summary_breakdown_values_sum_to_total (docs : List Doc)
    (month : Option String) :
    ∃ out : SummaryOut, summary true docs month = .ok out ∧
      valuesSum out.breakdown = out.total := by
  refine ⟨_, rfl, ?_⟩
  show valuesSum (breakdownOf _) = totalOf _
  rw [breakdownOf, valuesSum_foldl_breakdown]
  simp [valuesSum]

/-- C5: `list_expenses` returns the fetched documents sorted by date
descending (`docSortLe` pairwise: every document's date key is at least
every later one's), and documents with equal dates retain their
storage-retrieval order (for every date value, filtering the sorted output
to that key gives exactly the fetched sublist with that key). -/
theorem list_expenses_sorted_desc_and_stable (docs : List Doc)
    (month : Option String) :
    list_expenses true docs month =
        .ok ((sortByDateDesc (get_documents docs (monthFilter month))).map
          doc_to_expense_out) ∧
      List.Sorted docSortLe (sortByDateDesc (get_documents docs (monthFilter month))) ∧
      ∀ v : Datetime,
        (sortByDateDesc (get_documents docs (monthFilter month))).filter
            (fun d => decide (sortKey d = v)) =
          (get_documents docs (monthFilter month)).filter
            (fun d => decide (sortKey d = v)) :=
  ⟨rfl, sortByDateDesc_sorted _, fun v => sortByDateDesc_filter_sortKey _ v⟩

/-- C6: when every fetched document carries a month key as the create
operation produces it (present and non-empty), the values of the `trends`
mapping sum to the `total` field of the same response. -/
theorem summary_trends_values_sum_to_total (docs : List Doc)
    (month : Option String)
    (h : ∀ d ∈ get_documents docs (monthFilter month),
      ∃ m, d.month = some m ∧ m ≠ "") :
    ∃ out : SummaryOut, summary true docs month = .ok out ∧
      valuesSum out.trends = out.total := by
  refine ⟨_, rfl, ?_⟩
  show valuesSum (trendsOf _) = totalOf _
  rw [trendsOf, valuesSum_foldl_trends _ h]
  simp [valuesSum]

/-- Witness for C6: a one-document state whose month key is the
create-derived `"2024-03"`. -/
theorem summary_trends_values_sum_to_total_witness :
    (∀ d ∈ get_documents
        [(⟨"a", some 5, some "Food", none, some ⟨2024, 3, 15⟩, some "2024-03"⟩ : Doc)]
        (monthFilter none), ∃ m, d.month = some m ∧ m ≠ "") ∧
    ∃ out : SummaryOut,
      summary true
          [(⟨"a", some 5, some "Food", none, some ⟨2024, 3, 15⟩, some "2024-03"⟩ : Doc)]
          none = .ok out ∧
        valuesSum out.trends = out.total := by
  have h : ∀ d ∈ get_documents
      [(⟨"a", some 5, some "Food", none, some ⟨2024, 3, 15⟩, some "2024-03"⟩ : Doc)]
      (monthFilter none), ∃ m, d.month = some m ∧ m ≠ "" := by
    intro d hd
    simp only [get_documents, monthFilter, List.mem_singleton] at hd
    subst hd
    exact ⟨"2024-03", rfl, by decide⟩
  exact ⟨h, summary_trends_values_sum_to_total _ none h⟩

/-- C7: while the database handle is not configured, each of the three
data operations fails immediately with the 500 "Database not configured"
response — in the model the result is produced before any use of the
stored documents, and the create handler returns the collection
unchanged. -/
theorem db_unconfigured_all_ops_500 (docs : List Doc)
    (expense_dict : RawExpense) (m1 m2 : Option String) :
    add_expense false docs expense_dict =
        ⟨docs, .error (.http 500 "Database not configured")⟩ ∧
      list_expenses false docs m1 = .error (.http 500 "Database not configured") ∧
      summary false docs m2 = .error (.http 500 "Database not configured") :=
  ⟨rfl, rfl, rfl⟩

/-- C8: a fetched document with no category value has its amount
accumulated under the literal key `"Other"` of the `breakdown` mapping:
appending such a document to the fetched set raises the `"Other"` entry by
exactly that document's amount. -/
theorem summary_no_category_attributed_to_other (ds : List Doc) (d : Doc)
    (h : d.category = none) :
    dictGet (breakdownOf (ds ++ [d])) "Other" 0 =
      dictGet (breakdownOf ds) "Other" 0 + docAmount d := by
  unfold breakdownOf
  rw [List.foldl_append, List.foldl_cons, List.foldl_nil]
  show dictGet (dictAdd _ (d.category.getD "Other") (docAmount d)) "Other" 0 = _
  rw [h]
  show dictGet (dictAdd _ "Other" (docAmount d)) "Other" 0 = _
  rw [dictAdd, dictGet_dictSet_self]

/-- Witness for C8: a single category-less document of amount 7 lands
entirely under `"Other"`. -/
theorem summary_no_category_attributed_to_other_witness :
    (⟨"b", some 7, none, none, none, none⟩ : Doc).category = none ∧
    dictGet (breakdownOf ([] ++ [(⟨"b", some 7, none, none, none, none⟩ : Doc)]))
        "Other" 0 =
      dictGet (breakdownOf []) "Other" 0 +
        docAmount (⟨"b", some 7, none, none, none, none⟩ : Doc) :=
  ⟨rfl, summary_no_category_attributed_to_other []
    (⟨"b", some 7, none, none, none, none⟩ : Doc) rfl⟩

/-- C9: a create request whose amount is not strictly positive is rejected
by schema validation at the boundary — the response is the structured
per-field validation error, the handler never runs, and no document is
written. -/
theorem create_nonpositive_amount_rejected (dbc : Bool) (docs : List Doc)
    (raw : RawExpense) (h : raw.amount ≤ 0) :
    (create_pipeline dbc docs raw).docs = docs ∧
      ∃ msgs, (create_pipeline dbc docs raw).response = .error (.validation msgs) := by
  have h0 : ¬ (0 < raw.amount) := not_lt.mpr h
  unfold create_pipeline validateExpense
  rcases hd : raw.date with s | d
  · simp only [hd]
    rcases hp : pydanticParseDate s with _ | d'
    · simp only [hp, if_neg h0]
      exact ⟨trivial, _, rfl⟩
    · simp only [hp, if_neg h0]
      exact ⟨trivial, _, rfl⟩
  · simp only [hd, if_neg h0]
    exact ⟨trivial, _, rfl⟩

/-- Witness for C9: creating with amount 0 is rejected with a validation
error and writes nothing. -/
theorem create_nonpositive_amount_rejected_witness :
    ((0 : ℚ) ≤ 0) ∧
    ((create_pipeline true [] ⟨0, "Food", none, .text "2024-03-15", none⟩).docs = [] ∧
      ∃ msgs, (create_pipeline true []
          ⟨0, "Food", none, .text "2024-03-15", none⟩).response =
        .error (.validation msgs)) :=
  ⟨by decide, create_nonpositive_amount_rejected true []
    ⟨0, "Food", none, .text "2024-03-15", none⟩ (by decide)⟩

/-- C10: for every stored state, an empty-string month filter behaves
exactly like no filter at all, both for `list_expenses` and for `summary`:
Python truthiness makes `month=""` build the empty filter mapping. -/
theorem empty_month_filter_same_as_none (dbc : Bool) (docs : List Doc) :
    list_expenses dbc docs (some "") = list_expenses dbc docs none ∧
      summary dbc docs (some "") = summary dbc docs none := by
  have hm : monthFilter (some "") = monthFilter none := by simp [monthFilter]
  constructor <;> simp only [list_expenses, summary, hm]
